import Mathlib

/-!
A shallow embedding of the public-API wrapper headers of the FusionAPI
repository (directory `CPP/include`).  Every class in those headers is a thin
inline wrapper around a pure-virtual "raw" interface implemented by the host
engine.  We model each class's raw interface as a record of oracle functions
over an abstract host-engine state `S`; each inline wrapper body is translated
to a Lean function returning the wrapper's result, the list of raw-interface
calls it performed (each event records the method and the marshalled arguments
actually passed), and the final host state.  `const` raw methods are modelled
as pure reads of the state; mutating raw methods return their result together
with the updated state.
-/

namespace FusionAPI

/-! ### Opaque host-object handles

The host engine's objects are opaque to this layer; a raw pointer to such an
object is `Option H` for a handle type `H` (`none` is the C++ null pointer). -/

/-- Handle for an `adsk::cam::AdditiveFEADeckBuilderCard` host object. -/
structure CardObj where
  id : Nat

/-- Handle for an `adsk::cam::AdditiveFEADeckBuilder` host object. -/
structure DeckBuilderObj where
  id : Nat

/-- Handle for an `adsk::cam::AdditiveFEASTLMap` host object. -/
structure STLMapObj where
  id : Nat

/-- Handle for an `adsk::cam::AdditiveFEAConvection` host object. -/
structure ConvectionObj where
  id : Nat

/-- Handle for an `adsk::fusion::ConfigurationParameterColumn` host object. -/
structure ColumnObj where
  id : Nat

/-- Handle for an `adsk::sim::ConstraintMask` host object. -/
structure MaskObj where
  id : Nat

/-- Handle for an `adsk::core::Vector3D` host object. -/
structure Vector3DObj where
  id : Nat

/-- Handle for an `adsk::core::Base` host object (the input entities of a
`SimAttribute`). -/
structure BaseObj where
  id : Nat

/-- Handle for an `adsk::sim::SimAttribute` host object (the items of a
`LoadCaseItems` collection). -/
structure SimAttributeObj where
  id : Nat

/-- Modelled from the spec: `core::Ptr`, the shared reference-counted smart
pointer declared in `Core/Base.h`, which every header includes but which is not
part of this repository.  Per the spec it manages "reference-counted object
lifetime" and wraps the raw pointer returned by a raw method ("return false /
null on failure").  It stores one raw pointer unchanged (`none` is the C++
null pointer); `get` returns the stored raw pointer, so a `Ptr` is null exactly
when the raw pointer it was constructed from is null. -/
structure Ptr (α : Type) where
  get : Option α

/-- Constructing a `core::Ptr` from a raw pointer (the implicit conversion used
in every wrapper body, for instance `core::Ptr<X> res = x_raw();`). -/
def Ptr.ofRaw {α : Type} (p : Option α) : Ptr α := ⟨p⟩

/-- Whether a `core::Ptr` is the null pointer. -/
def Ptr.isNull {α : Type} (p : Ptr α) : Bool := p.get.isNone

/-- The C++ `double` type.  The wrapper layer only passes `double` values
through unchanged, so the carrier is inert here. -/
abbrev CppDouble : Type := Float

/-- The C++ `int` type.  The wrapper layer only passes `int` values through
unchanged. -/
abbrev CppInt : Type := Int

/-- `ConstraintTypes` from `Sim/SimTypeDefs.h`: a C++ unscoped enum, which is
an integer type.  The named enumerators below are the values 0..5, but the
type itself admits any value of the underlying integer type, which is how an
out-of-range enum value can reach a wrapper method. -/
abbrev ConstraintTypes : Type := Int

/-- Enumerator `UnknownConstraintType` of `ConstraintTypes`. -/
abbrev UnknownConstraintType : ConstraintTypes := (0 : Int)

/-- Enumerator `FixedConstraintType` of `ConstraintTypes`. -/
abbrev FixedConstraintType : ConstraintTypes := (1 : Int)

/-- Enumerator `SurfaceRollerConstraintType` of `ConstraintTypes`. -/
abbrev SurfaceRollerConstraintType : ConstraintTypes := (2 : Int)

/-- Enumerator `DirectionalConstraintType` of `ConstraintTypes`. -/
abbrev DirectionalConstraintType : ConstraintTypes := (3 : Int)

/-- Enumerator `PinConstraintType` of `ConstraintTypes`. -/
abbrev PinConstraintType : ConstraintTypes := (4 : Int)

/-- Enumerator `RemoteConstraintType` of `ConstraintTypes`. -/
abbrev RemoteConstraintType : ConstraintTypes := (5 : Int)

/-- Modelled from the spec: the `AdditiveFEACard` enum declared in
`Cam/CamTypeDefs.h`, which `AdditiveFEADeckBuilder.h` includes but which is not
part of this repository.  It is a C++ unscoped enum (an integer type) whose
values select the card kind (`BinaryOutputCard`, `TitleCard`, ...); the wrapper
layer passes the value through unchanged. -/
abbrev AdditiveFEACard : Type := Int

/-! ### ConstraintMask (`Sim/Simulation/ConstraintMask.h`)

Each C++ method name is overloaded between a `const` getter and a setter; Lean
has no overloading, so the getter is suffixed `_get` and the setter `_set`. -/

/-- One raw-interface call of `ConstraintMask`, with the argument passed. -/
inductive ConstraintMaskEvent where
  | isDisplacementConstrainedX_get
  | isDisplacementConstrainedX_set (value : Bool)
  | isDisplacementConstrainedY_get
  | isDisplacementConstrainedY_set (value : Bool)
  | isDisplacementConstrainedZ_get
  | isDisplacementConstrainedZ_set (value : Bool)
  | isRotationConstrainedX_get
  | isRotationConstrainedX_set (value : Bool)
  | isRotationConstrainedY_get
  | isRotationConstrainedY_set (value : Bool)
  | isRotationConstrainedZ_get
  | isRotationConstrainedZ_set (value : Bool)

/-- The raw virtual interface of `ConstraintMask` (`ConstraintMask.h`, lines
70-82), as an oracle over the host state `S`: one field per pure-virtual raw
method.  `const` raw methods read the state; setters return the `bool` result
and the updated state. -/
structure ConstraintMaskRaw (S : Type) where
  isDisplacementConstrainedX_raw_get : S → Bool
  isDisplacementConstrainedX_raw_set : Bool → S → Bool × S
  isDisplacementConstrainedY_raw_get : S → Bool
  isDisplacementConstrainedY_raw_set : Bool → S → Bool × S
  isDisplacementConstrainedZ_raw_get : S → Bool
  isDisplacementConstrainedZ_raw_set : Bool → S → Bool × S
  isRotationConstrainedX_raw_get : S → Bool
  isRotationConstrainedX_raw_set : Bool → S → Bool × S
  isRotationConstrainedY_raw_get : S → Bool
  isRotationConstrainedY_raw_set : Bool → S → Bool × S
  isRotationConstrainedZ_raw_get : S → Bool
  isRotationConstrainedZ_raw_set : Bool → S → Bool × S

variable {S : Type}

/-- `ConstraintMask::isDisplacementConstrainedX() const` (lines 87-91):
`bool res = isDisplacementConstrainedX_raw(); return res;`. -/
def ConstraintMask.isDisplacementConstrainedX_get (R : ConstraintMaskRaw S)
    (s : S) : Bool × List ConstraintMaskEvent × S :=
  (R.isDisplacementConstrainedX_raw_get s,
    [ConstraintMaskEvent.isDisplacementConstrainedX_get], s)

/-- `ConstraintMask::isDisplacementConstrainedX(bool value)` (lines 93-96):
`return isDisplacementConstrainedX_raw(value);`. -/
def ConstraintMask.isDisplacementConstrainedX_set (R : ConstraintMaskRaw S)
    (value : Bool) (s : S) : Bool × List ConstraintMaskEvent × S :=
  let r := R.isDisplacementConstrainedX_raw_set value s
  (r.1, [ConstraintMaskEvent.isDisplacementConstrainedX_set value], r.2)

/-- `ConstraintMask::isDisplacementConstrainedY() const` (lines 98-102). -/
def ConstraintMask.isDisplacementConstrainedY_get (R : ConstraintMaskRaw S)
    (s : S) : Bool × List ConstraintMaskEvent × S :=
  (R.isDisplacementConstrainedY_raw_get s,
    [ConstraintMaskEvent.isDisplacementConstrainedY_get], s)

/-- `ConstraintMask::isDisplacementConstrainedY(bool value)` (lines 104-107). -/
def ConstraintMask.isDisplacementConstrainedY_set (R : ConstraintMaskRaw S)
    (value : Bool) (s : S) : Bool × List ConstraintMaskEvent × S :=
  let r := R.isDisplacementConstrainedY_raw_set value s
  (r.1, [ConstraintMaskEvent.isDisplacementConstrainedY_set value], r.2)

/-- `ConstraintMask::isDisplacementConstrainedZ() const` (lines 109-113). -/
def ConstraintMask.isDisplacementConstrainedZ_get (R : ConstraintMaskRaw S)
    (s : S) : Bool × List ConstraintMaskEvent × S :=
  (R.isDisplacementConstrainedZ_raw_get s,
    [ConstraintMaskEvent.isDisplacementConstrainedZ_get], s)

/-- `ConstraintMask::isDisplacementConstrainedZ(bool value)` (lines 115-118). -/
def ConstraintMask.isDisplacementConstrainedZ_set (R : ConstraintMaskRaw S)
    (value : Bool) (s : S) : Bool × List ConstraintMaskEvent × S :=
  let r := R.isDisplacementConstrainedZ_raw_set value s
  (r.1, [ConstraintMaskEvent.isDisplacementConstrainedZ_set value], r.2)

/-- `ConstraintMask::isRotationConstrainedX() const` (lines 120-124). -/
def ConstraintMask.isRotationConstrainedX_get (R : ConstraintMaskRaw S)
    (s : S) : Bool × List ConstraintMaskEvent × S :=
  (R.isRotationConstrainedX_raw_get s,
    [ConstraintMaskEvent.isRotationConstrainedX_get], s)

/-- `ConstraintMask::isRotationConstrainedX(bool value)` (lines 126-129). -/
def ConstraintMask.isRotationConstrainedX_set (R : ConstraintMaskRaw S)
    (value : Bool) (s : S) : Bool × List ConstraintMaskEvent × S :=
  let r := R.isRotationConstrainedX_raw_set value s
  (r.1, [ConstraintMaskEvent.isRotationConstrainedX_set value], r.2)

/-- `ConstraintMask::isRotationConstrainedY() const` (lines 131-135). -/
def ConstraintMask.isRotationConstrainedY_get (R : ConstraintMaskRaw S)
    (s : S) : Bool × List ConstraintMaskEvent × S :=
  (R.isRotationConstrainedY_raw_get s,
    [ConstraintMaskEvent.isRotationConstrainedY_get], s)

/-- `ConstraintMask::isRotationConstrainedY(bool value)` (lines 137-140). -/
def ConstraintMask.isRotationConstrainedY_set (R : ConstraintMaskRaw S)
    (value : Bool) (s : S) : Bool × List ConstraintMaskEvent × S :=
  let r := R.isRotationConstrainedY_raw_set value s
  (r.1, [ConstraintMaskEvent.isRotationConstrainedY_set value], r.2)

/-- `ConstraintMask::isRotationConstrainedZ() const` (lines 142-146). -/
def ConstraintMask.isRotationConstrainedZ_get (R : ConstraintMaskRaw S)
    (s : S) : Bool × List ConstraintMaskEvent × S :=
  (R.isRotationConstrainedZ_raw_get s,
    [ConstraintMaskEvent.isRotationConstrainedZ_get], s)

/-- `ConstraintMask::isRotationConstrainedZ(bool value)` (lines 148-151). -/
def ConstraintMask.isRotationConstrainedZ_set (R : ConstraintMaskRaw S)
    (value : Bool) (s : S) : Bool × List ConstraintMaskEvent × S :=
  let r := R.isRotationConstrainedZ_raw_set value s
  (r.1, [ConstraintMaskEvent.isRotationConstrainedZ_set value], r.2)

/-! ### ConfigurationParameterCell
(`Original/Fusion/Configurations/ConfigurationParameterCell.h`) -/

/-- One raw-interface call of `ConfigurationParameterCell`.  `deallocateArray`
records the call to `core::DeallocateArray` that frees the C string returned by
`expression_raw()`; it is a core helper, not a raw method of this class. -/
inductive ConfigurationParameterCellEvent where
  | parentColumn_get
  | expression_get
  | expression_set (value : String)
  | value_get
  | value_set (value : CppDouble)
  | deallocateArray

/-- The raw virtual interface of `ConfigurationParameterCell`
(`ConfigurationParameterCell.h`, lines 62-67).  A returned C string is modelled
as `Option String`: `none` is a null `char*`, `some str` a non-null pointer to
the character sequence `str`; `c_str()` of a `std::string` passes the same
character sequence. -/
structure ConfigurationParameterCellRaw (S : Type) where
  parentColumn_raw : S → Option ColumnObj
  expression_raw_get : S → Option String
  expression_raw_set : String → S → Bool × S
  value_raw_get : S → CppDouble
  value_raw_set : CppDouble → S → Bool × S

/-- `ConfigurationParameterCell::parentColumn() const` (lines 72-76):
`core::Ptr<ConfigurationParameterColumn> res = parentColumn_raw(); return res;`. -/
def ConfigurationParameterCell.parentColumn (R : ConfigurationParameterCellRaw S)
    (s : S) : Ptr ColumnObj × List ConfigurationParameterCellEvent × S :=
  (Ptr.ofRaw (R.parentColumn_raw s),
    [ConfigurationParameterCellEvent.parentColumn_get], s)

/-- `ConfigurationParameterCell::expression() const` (lines 78-89):
`std::string res; char* p = expression_raw(); if (p) { res = p;
core::DeallocateArray(p); } return res;`. -/
def ConfigurationParameterCell.expression_get (R : ConfigurationParameterCellRaw S)
    (s : S) : String × List ConfigurationParameterCellEvent × S :=
  match R.expression_raw_get s with
  | none => ("", [ConfigurationParameterCellEvent.expression_get], s)
  | some p => (p, [ConfigurationParameterCellEvent.expression_get,
      ConfigurationParameterCellEvent.deallocateArray], s)

/-- `ConfigurationParameterCell::expression(const std::string& value)`
(lines 91-94): `return expression_raw(value.c_str());`. -/
def ConfigurationParameterCell.expression_set (R : ConfigurationParameterCellRaw S)
    (value : String) (s : S) : Bool × List ConfigurationParameterCellEvent × S :=
  let r := R.expression_raw_set value s
  (r.1, [ConfigurationParameterCellEvent.expression_set value], r.2)

/-- `ConfigurationParameterCell::value() const` (lines 96-100):
`double res = value_raw(); return res;`. -/
def ConfigurationParameterCell.value_get (R : ConfigurationParameterCellRaw S)
    (s : S) : CppDouble × List ConfigurationParameterCellEvent × S :=
  (R.value_raw_get s, [ConfigurationParameterCellEvent.value_get], s)

/-- `ConfigurationParameterCell::value(double value)` (lines 102-105):
`return value_raw(value);`. -/
def ConfigurationParameterCell.value_set (R : ConfigurationParameterCellRaw S)
    (value : CppDouble) (s : S) : Bool × List ConfigurationParameterCellEvent × S :=
  let r := R.value_raw_set value s
  (r.1, [ConfigurationParameterCellEvent.value_set value], r.2)

/-! ### SimAttribute (`Sim/Simulation/SimAttribute.h`) -/

/-- One raw-interface call of `SimAttribute`, with the marshalled arguments:
the setter events record exactly what crosses the ABI boundary (the character
sequence for `name`, the raw-pointer array and its size for `inputEntities`). -/
inductive SimAttributeEvent where
  | name_get
  | name_set (value : String)
  | inputEntities_get
  | inputEntities_set (value : List (Option BaseObj)) (value_size : Nat)
  | deallocateArray

/-- The raw virtual interface of `SimAttribute` (`SimAttribute.h`, lines
59-62).  `inputEntities_raw_get` models
`core::Base** inputEntities_raw(size_t& return_size) const`: it returns the
array (`none` is a null pointer, `some mem` the memory at the pointer, indexed
from 0) together with the value it assigns to the `return_size` out-parameter
(`none` when the call leaves it unassigned). -/
structure SimAttributeRaw (S : Type) where
  name_raw_get : S → Option String
  name_raw_set : String → S → Bool × S
  inputEntities_raw_get : S → Option (Nat → Option BaseObj) × Option Nat
  inputEntities_raw_set : List (Option BaseObj) → Nat → S → Bool × S

/-- `SimAttribute::name() const` (lines 79-90): `std::string res;
char* p = name_raw(); if (p) { res = p; core::DeallocateArray(p); }
return res;`. -/
def SimAttribute.name_get (R : SimAttributeRaw S) (s : S) :
    String × List SimAttributeEvent × S :=
  match R.name_raw_get s with
  | none => ("", [SimAttributeEvent.name_get], s)
  | some p => (p, [SimAttributeEvent.name_get,
      SimAttributeEvent.deallocateArray], s)

/-- `SimAttribute::name(const std::string& value)` (lines 92-95):
`return name_raw(value.c_str());`. -/
def SimAttribute.name_set (R : SimAttributeRaw S) (value : String) (s : S) :
    Bool × List SimAttributeEvent × S :=
  let r := R.name_raw_set value s
  (r.1, [SimAttributeEvent.name_set value], r.2)

/-- `SimAttribute::inputEntities() const` (lines 97-109):
`std::vector<core::Ptr<core::Base>> res; size_t s;
core::Base** p = inputEntities_raw(s); if (p) { res.assign(p, p+s);
core::DeallocateArray(p); } return res;`.  The local `s` is declared
uninitialized; `garbage` is its indeterminate initial contents, which remain
its value when the raw call does not assign it. -/
def SimAttribute.inputEntities_get (R : SimAttributeRaw S) (s : S)
    (garbage : Nat) : List (Ptr BaseObj) × List SimAttributeEvent × S :=
  let out := R.inputEntities_raw_get s
  let sz := out.2.getD garbage
  match out.1 with
  | none => ([], [SimAttributeEvent.inputEntities_get], s)
  | some mem => ((List.range sz).map fun i => Ptr.ofRaw (mem i),
      [SimAttributeEvent.inputEntities_get,
        SimAttributeEvent.deallocateArray], s)

/-- `SimAttribute::inputEntities(const std::vector<core::Ptr<core::Base>>& value)`
(lines 111-120): builds `value_` with `value_[i] = value[i].get()` and calls
`inputEntities_raw(value_, value.size())`. -/
def SimAttribute.inputEntities_set (R : SimAttributeRaw S)
    (value : List (Ptr BaseObj)) (s : S) :
    Bool × List SimAttributeEvent × S :=
  let value' := value.map Ptr.get
  let r := R.inputEntities_raw_set value' value.length s
  (r.1, [SimAttributeEvent.inputEntities_set value' value.length], r.2)

/-! ### StructuralConstraint (`Sim/Simulation/StructuralConstraint.h`) -/

/-- One raw-interface call of `StructuralConstraint`, with the marshalled
argument (a `core::Ptr` argument crosses the boundary as its raw pointer,
`value.get()`). -/
inductive StructuralConstraintEvent where
  | type_get
  | type_set (value : ConstraintTypes)
  | mask_get
  | mask_set (value : Option MaskObj)
  | displacements_get
  | displacements_set (value : Option Vector3DObj)
  | rotations_get
  | rotations_set (value : Option Vector3DObj)

/-- The raw virtual interface of `StructuralConstraint`
(`StructuralConstraint.h`, lines 71-78). -/
structure StructuralConstraintRaw (S : Type) where
  type_raw_get : S → ConstraintTypes
  type_raw_set : ConstraintTypes → S → Bool × S
  mask_raw_get : S → Option MaskObj
  mask_raw_set : Option MaskObj → S → Bool × S
  displacements_raw_get : S → Option Vector3DObj
  displacements_raw_set : Option Vector3DObj → S → Bool × S
  rotations_raw_get : S → Option Vector3DObj
  rotations_raw_set : Option Vector3DObj → S → Bool × S

/-- `StructuralConstraint::type() const` (lines 107-111):
`ConstraintTypes res = type_raw(); return res;`. -/
def StructuralConstraint.type_get (R : StructuralConstraintRaw S) (s : S) :
    ConstraintTypes × List StructuralConstraintEvent × S :=
  (R.type_raw_get s, [StructuralConstraintEvent.type_get], s)

/-- `StructuralConstraint::type(ConstraintTypes value)` (lines 113-116):
`return type_raw(value);`. -/
def StructuralConstraint.type_set (R : StructuralConstraintRaw S)
    (value : ConstraintTypes) (s : S) :
    Bool × List StructuralConstraintEvent × S :=
  let r := R.type_raw_set value s
  (r.1, [StructuralConstraintEvent.type_set value], r.2)

/-- `StructuralConstraint::mask() const` (lines 118-122):
`core::Ptr<ConstraintMask> res = mask_raw(); return res;`. -/
def StructuralConstraint.mask_get (R : StructuralConstraintRaw S) (s : S) :
    Ptr MaskObj × List StructuralConstraintEvent × S :=
  (Ptr.ofRaw (R.mask_raw_get s), [StructuralConstraintEvent.mask_get], s)

/-- `StructuralConstraint::mask(const core::Ptr<ConstraintMask>& value)`
(lines 124-127): `return mask_raw(value.get());`. -/
def StructuralConstraint.mask_set (R : StructuralConstraintRaw S)
    (value : Ptr MaskObj) (s : S) :
    Bool × List StructuralConstraintEvent × S :=
  let r := R.mask_raw_set value.get s
  (r.1, [StructuralConstraintEvent.mask_set value.get], r.2)

/-- `StructuralConstraint::displacements() const` (lines 129-133). -/
def StructuralConstraint.displacements_get (R : StructuralConstraintRaw S)
    (s : S) : Ptr Vector3DObj × List StructuralConstraintEvent × S :=
  (Ptr.ofRaw (R.displacements_raw_get s),
    [StructuralConstraintEvent.displacements_get], s)

/-- `StructuralConstraint::displacements(const core::Ptr<core::Vector3D>& value)`
(lines 135-138): `return displacements_raw(value.get());`. -/
def StructuralConstraint.displacements_set (R : StructuralConstraintRaw S)
    (value : Ptr Vector3DObj) (s : S) :
    Bool × List StructuralConstraintEvent × S :=
  let r := R.displacements_raw_set value.get s
  (r.1, [StructuralConstraintEvent.displacements_set value.get], r.2)

/-- `StructuralConstraint::rotations() const` (lines 140-144). -/
def StructuralConstraint.rotations_get (R : StructuralConstraintRaw S)
    (s : S) : Ptr Vector3DObj × List StructuralConstraintEvent × S :=
  (Ptr.ofRaw (R.rotations_raw_get s),
    [StructuralConstraintEvent.rotations_get], s)

/-- `StructuralConstraint::rotations(const core::Ptr<core::Vector3D>& value)`
(lines 146-149): `return rotations_raw(value.get());`. -/
def StructuralConstraint.rotations_set (R : StructuralConstraintRaw S)
    (value : Ptr Vector3DObj) (s : S) :
    Bool × List StructuralConstraintEvent × S :=
  let r := R.rotations_raw_set value.get s
  (r.1, [StructuralConstraintEvent.rotations_set value.get], r.2)

/-! ### AdditiveFEADeckBuilder (`Cam/AdditiveFEA/AdditiveFEADeckBuilder.h`) -/

/-- One raw-interface call of `AdditiveFEADeckBuilder`, with the marshalled
arguments.  For `createStringArrayCard_raw` the event records the `const
char**` array actually passed (`none` when the wrapper passed `nullptr`
because the vector was empty, `some l` the character sequences of the `l`
entries, in order) and the `size_t` size argument. -/
inductive AdditiveFEADeckBuilderEvent where
  | create
  | createSTLMap
  | createConvection
  | append (card : Option CardObj)
  | createGenericCard (name : String) (value : String)
  | createVoidCard (card : AdditiveFEACard)
  | createIntCard (card : AdditiveFEACard) (value : CppInt)
  | createDoubleCard (card : AdditiveFEACard) (value : CppDouble)
  | createStringCard (card : AdditiveFEACard) (value : String)
  | createStringArrayCard (card : AdditiveFEACard)
      (value : Option (List String)) (value_size : Nat)
  | createBuildPlateZBoundsCard (zTop : CppDouble) (zBottom : CppDouble)
  | createDiskCheckCard (i1 : CppInt) (r1 : CppDouble)
  | createSTLMapCard (map : Option STLMapObj)
  | createConvectionCard (convection : Option ConvectionObj)
  | createBuildPlateXYExtensionCard (left : CppDouble) (right : CppDouble)
      (front : CppDouble) (back : CppDouble)
  | cards_get
  | deallocateArray

/-- The raw interface of `AdditiveFEADeckBuilder`
(`AdditiveFEADeckBuilder.h`, lines 153-169): the static factory `create_raw`
plus one field per pure-virtual raw method.  `cards_raw` models
`AdditiveFEADeckBuilderCard** cards_raw(size_t& return_size) const`: the
returned array (`none` for null) and the value assigned to `return_size`
(`none` when the call leaves it unassigned). -/
structure AdditiveFEADeckBuilderRaw (S : Type) where
  create_raw : S → Option DeckBuilderObj × S
  createSTLMap_raw : S → Option STLMapObj × S
  createConvection_raw : S → Option ConvectionObj × S
  append_raw : Option CardObj → S → S
  createGenericCard_raw : String → String → S → Option CardObj × S
  createVoidCard_raw : AdditiveFEACard → S → Option CardObj × S
  createIntCard_raw : AdditiveFEACard → CppInt → S → Option CardObj × S
  createDoubleCard_raw : AdditiveFEACard → CppDouble → S → Option CardObj × S
  createStringCard_raw : AdditiveFEACard → String → S → Option CardObj × S
  createStringArrayCard_raw :
    AdditiveFEACard → Option (List String) → Nat → S → Option CardObj × S
  createBuildPlateZBoundsCard_raw :
    CppDouble → CppDouble → S → Option CardObj × S
  createDiskCheckCard_raw : CppInt → CppDouble → S → Option CardObj × S
  createSTLMapCard_raw : Option STLMapObj → S → Option CardObj × S
  createConvectionCard_raw : Option ConvectionObj → S → Option CardObj × S
  createBuildPlateXYExtensionCard_raw :
    CppDouble → CppDouble → CppDouble → CppDouble → S → Option CardObj × S
  cards_raw : S → Option (Nat → Option CardObj) × Option Nat

/-- `AdditiveFEADeckBuilder::create()` (lines 174-178):
`core::Ptr<AdditiveFEADeckBuilder> res = create_raw(); return res;`. -/
def AdditiveFEADeckBuilder.create (R : AdditiveFEADeckBuilderRaw S) (s : S) :
    Ptr DeckBuilderObj × List AdditiveFEADeckBuilderEvent × S :=
  let r := R.create_raw s
  (Ptr.ofRaw r.1, [AdditiveFEADeckBuilderEvent.create], r.2)

/-- `AdditiveFEADeckBuilder::createSTLMap()` (lines 180-184). -/
def AdditiveFEADeckBuilder.createSTLMap (R : AdditiveFEADeckBuilderRaw S)
    (s : S) : Ptr STLMapObj × List AdditiveFEADeckBuilderEvent × S :=
  let r := R.createSTLMap_raw s
  (Ptr.ofRaw r.1, [AdditiveFEADeckBuilderEvent.createSTLMap], r.2)

/-- `AdditiveFEADeckBuilder::createConvection()` (lines 186-190). -/
def AdditiveFEADeckBuilder.createConvection (R : AdditiveFEADeckBuilderRaw S)
    (s : S) : Ptr ConvectionObj × List AdditiveFEADeckBuilderEvent × S :=
  let r := R.createConvection_raw s
  (Ptr.ofRaw r.1, [AdditiveFEADeckBuilderEvent.createConvection], r.2)

/-- `AdditiveFEADeckBuilder::append(const core::Ptr<AdditiveFEADeckBuilderCard>& card)`
(lines 192-195): `append_raw(card.get());`. -/
def AdditiveFEADeckBuilder.append (R : AdditiveFEADeckBuilderRaw S)
    (card : Ptr CardObj) (s : S) :
    Unit × List AdditiveFEADeckBuilderEvent × S :=
  ((), [AdditiveFEADeckBuilderEvent.append card.get], R.append_raw card.get s)

/-- `AdditiveFEADeckBuilder::createGenericCard` (lines 197-201):
`createGenericCard_raw(name.c_str(), value.c_str())`. -/
def AdditiveFEADeckBuilder.createGenericCard (R : AdditiveFEADeckBuilderRaw S)
    (name : String) (value : String) (s : S) :
    Ptr CardObj × List AdditiveFEADeckBuilderEvent × S :=
  let r := R.createGenericCard_raw name value s
  (Ptr.ofRaw r.1, [AdditiveFEADeckBuilderEvent.createGenericCard name value], r.2)

/-- `AdditiveFEADeckBuilder::createVoidCard(AdditiveFEACard card)`
(lines 203-207). -/
def AdditiveFEADeckBuilder.createVoidCard (R : AdditiveFEADeckBuilderRaw S)
    (card : AdditiveFEACard) (s : S) :
    Ptr CardObj × List AdditiveFEADeckBuilderEvent × S :=
  let r := R.createVoidCard_raw card s
  (Ptr.ofRaw r.1, [AdditiveFEADeckBuilderEvent.createVoidCard card], r.2)

/-- `AdditiveFEADeckBuilder::createIntCard(AdditiveFEACard card, int value)`
(lines 209-213). -/
def AdditiveFEADeckBuilder.createIntCard (R : AdditiveFEADeckBuilderRaw S)
    (card : AdditiveFEACard) (value : CppInt) (s : S) :
    Ptr CardObj × List AdditiveFEADeckBuilderEvent × S :=
  let r := R.createIntCard_raw card value s
  (Ptr.ofRaw r.1, [AdditiveFEADeckBuilderEvent.createIntCard card value], r.2)

/-- `AdditiveFEADeckBuilder::createDoubleCard(AdditiveFEACard card, double value)`
(lines 215-219). -/
def AdditiveFEADeckBuilder.createDoubleCard (R : AdditiveFEADeckBuilderRaw S)
    (card : AdditiveFEACard) (value : CppDouble) (s : S) :
    Ptr CardObj × List AdditiveFEADeckBuilderEvent × S :=
  let r := R.createDoubleCard_raw card value s
  (Ptr.ofRaw r.1, [AdditiveFEADeckBuilderEvent.createDoubleCard card value], r.2)

/-- `AdditiveFEADeckBuilder::createStringCard(AdditiveFEACard card, const std::string& value)`
(lines 221-225): `createStringCard_raw(card, value.c_str())`. -/
def AdditiveFEADeckBuilder.createStringCard (R : AdditiveFEADeckBuilderRaw S)
    (card : AdditiveFEACard) (value : String) (s : S) :
    Ptr CardObj × List AdditiveFEADeckBuilderEvent × S :=
  let r := R.createStringCard_raw card value s
  (Ptr.ofRaw r.1, [AdditiveFEADeckBuilderEvent.createStringCard card value], r.2)

/-- `AdditiveFEADeckBuilder::createStringArrayCard` (lines 227-238):
`const char** value_ = value.empty() ? nullptr : (new const char*[value.size()]);
for (i < value.size()) value_[i] = value[i].c_str();
res = createStringArrayCard_raw(card, value_, value.size()); delete[] value_;`.
The array passed across the boundary is `none` (null) when the vector is
empty, otherwise the vector's character sequences in order; the size argument
is always `value.size()`. -/
def AdditiveFEADeckBuilder.createStringArrayCard (R : AdditiveFEADeckBuilderRaw S)
    (card : AdditiveFEACard) (value : List String) (s : S) :
    Ptr CardObj × List AdditiveFEADeckBuilderEvent × S :=
  let value' : Option (List String) := if value.isEmpty then none else some value
  let r := R.createStringArrayCard_raw card value' value.length s
  (Ptr.ofRaw r.1,
    [AdditiveFEADeckBuilderEvent.createStringArrayCard card value' value.length],
    r.2)

/-- `AdditiveFEADeckBuilder::createBuildPlateZBoundsCard(double zTop, double zBottom)`
(lines 240-244). -/
def AdditiveFEADeckBuilder.createBuildPlateZBoundsCard
    (R : AdditiveFEADeckBuilderRaw S) (zTop : CppDouble) (zBottom : CppDouble)
    (s : S) : Ptr CardObj × List AdditiveFEADeckBuilderEvent × S :=
  let r := R.createBuildPlateZBoundsCard_raw zTop zBottom s
  (Ptr.ofRaw r.1,
    [AdditiveFEADeckBuilderEvent.createBuildPlateZBoundsCard zTop zBottom], r.2)

/-- `AdditiveFEADeckBuilder::createDiskCheckCard(int i1, double r1)`
(lines 246-250). -/
def AdditiveFEADeckBuilder.createDiskCheckCard (R : AdditiveFEADeckBuilderRaw S)
    (i1 : CppInt) (r1 : CppDouble) (s : S) :
    Ptr CardObj × List AdditiveFEADeckBuilderEvent × S :=
  let r := R.createDiskCheckCard_raw i1 r1 s
  (Ptr.ofRaw r.1, [AdditiveFEADeckBuilderEvent.createDiskCheckCard i1 r1], r.2)

/-- `AdditiveFEADeckBuilder::createSTLMapCard(const core::Ptr<AdditiveFEASTLMap>& map)`
(lines 252-256): `createSTLMapCard_raw(map.get())`. -/
def AdditiveFEADeckBuilder.createSTLMapCard (R : AdditiveFEADeckBuilderRaw S)
    (map : Ptr STLMapObj) (s : S) :
    Ptr CardObj × List AdditiveFEADeckBuilderEvent × S :=
  let r := R.createSTLMapCard_raw map.get s
  (Ptr.ofRaw r.1, [AdditiveFEADeckBuilderEvent.createSTLMapCard map.get], r.2)

/-- `AdditiveFEADeckBuilder::createConvectionCard(const core::Ptr<AdditiveFEAConvection>& convection)`
(lines 258-262): `createConvectionCard_raw(convection.get())`. -/
def AdditiveFEADeckBuilder.createConvectionCard (R : AdditiveFEADeckBuilderRaw S)
    (convection : Ptr ConvectionObj) (s : S) :
    Ptr CardObj × List AdditiveFEADeckBuilderEvent × S :=
  let r := R.createConvectionCard_raw convection.get s
  (Ptr.ofRaw r.1,
    [AdditiveFEADeckBuilderEvent.createConvectionCard convection.get], r.2)

/-- `AdditiveFEADeckBuilder::createBuildPlateXYExtensionCard` (lines 264-268). -/
def AdditiveFEADeckBuilder.createBuildPlateXYExtensionCard
    (R : AdditiveFEADeckBuilderRaw S) (left : CppDouble) (right : CppDouble)
    (front : CppDouble) (back : CppDouble) (s : S) :
    Ptr CardObj × List AdditiveFEADeckBuilderEvent × S :=
  let r := R.createBuildPlateXYExtensionCard_raw left right front back s
  (Ptr.ofRaw r.1,
    [AdditiveFEADeckBuilderEvent.createBuildPlateXYExtensionCard
      left right front back], r.2)

/-- `AdditiveFEADeckBuilder::cards() const` (lines 270-282):
`std::vector<core::Ptr<AdditiveFEADeckBuilderCard>> res; size_t s;
AdditiveFEADeckBuilderCard** p = cards_raw(s); if (p) { res.assign(p, p+s);
core::DeallocateArray(p); } return res;`.  The local `s` is declared
uninitialized; `garbage` is its indeterminate initial contents, which remain
its value when the raw call does not assign it. -/
def AdditiveFEADeckBuilder.cards (R : AdditiveFEADeckBuilderRaw S) (s : S)
    (garbage : Nat) : List (Ptr CardObj) × List AdditiveFEADeckBuilderEvent × S :=
  let out := R.cards_raw s
  let sz := out.2.getD garbage
  match out.1 with
  | none => ([], [AdditiveFEADeckBuilderEvent.cards_get], s)
  | some mem => ((List.range sz).map fun i => Ptr.ofRaw (mem i),
      [AdditiveFEADeckBuilderEvent.cards_get,
        AdditiveFEADeckBuilderEvent.deallocateArray], s)

/-! ### LoadCaseItems (`Sim/Simulation/LoadCaseItems.h`) -/

/-- One raw-interface call of `LoadCaseItems`. -/
inductive LoadCaseItemsEvent where
  | item (index : Nat)
  | itemByName (name : String)
  | count

/-- The raw virtual interface of `LoadCaseItems` (`LoadCaseItems.h`, lines
67-70); all three raw methods are `const`, hence pure reads of the host
state. -/
structure LoadCaseItemsRaw (S : Type) where
  item_raw : Nat → S → Option SimAttributeObj
  itemByName_raw : String → S → Option SimAttributeObj
  count_raw : S → Nat

/-- `LoadCaseItems::item(size_t index) const` (lines 75-79):
`core::Ptr<SimAttribute> res = item_raw(index); return res;`. -/
def LoadCaseItems.item (R : LoadCaseItemsRaw S) (s : S) (index : Nat) :
    Ptr SimAttributeObj × List LoadCaseItemsEvent × S :=
  (Ptr.ofRaw (R.item_raw index s), [LoadCaseItemsEvent.item index], s)

/-- `LoadCaseItems::itemByName(const std::string& name) const` (lines 81-85):
`core::Ptr<SimAttribute> res = itemByName_raw(name.c_str()); return res;`. -/
def LoadCaseItems.itemByName (R : LoadCaseItemsRaw S) (s : S) (name : String) :
    Ptr SimAttributeObj × List LoadCaseItemsEvent × S :=
  (Ptr.ofRaw (R.itemByName_raw name s), [LoadCaseItemsEvent.itemByName name], s)

/-- `LoadCaseItems::count() const` (lines 87-91):
`size_t res = count_raw(); return res;`. -/
def LoadCaseItems.count (R : LoadCaseItemsRaw S) (s : S) :
    Nat × List LoadCaseItemsEvent × S :=
  (R.count_raw s, [LoadCaseItemsEvent.count], s)

/-- The loop of `LoadCaseItems::copyTo` from iteration `i` on: while
`i < count()` it writes `item(i)` through the output iterator and increments
`i`.  All raw methods of this class are `const`, so the state over which the
loop runs is fixed. -/
def LoadCaseItems.copyToAux (R : LoadCaseItemsRaw S) (s : S) (i : Nat) :
    List (Ptr SimAttributeObj) :=
  if h : i < (LoadCaseItems.count R s).1 then
    (LoadCaseItems.item R s i).1 :: LoadCaseItems.copyToAux R s (i + 1)
  else
    []
termination_by (LoadCaseItems.count R s).1 - i

/-- `LoadCaseItems::copyTo(OutputIterator result)` (lines 93-100):
`for (size_t i = 0; i < count(); ++i) { *result = item(i); ++result; }`.
The value is the sequence of elements written through the output iterator, in
the order written. -/
def LoadCaseItems.copyTo (R : LoadCaseItemsRaw S) (s : S) :
    List (Ptr SimAttributeObj) :=
  LoadCaseItems.copyToAux R s 0

/-! ### Concrete test oracles

Concrete instantiations of the raw-interface oracles over the trivial host
state `Unit`, used to evaluate the wrappers on closed inputs. -/

/-- A `SimAttributeRaw` oracle whose raw calls succeed: `name_raw` returns a
non-null C string, `inputEntities_raw` a non-null two-element array. -/
def sampleSimAttributeRaw : SimAttributeRaw Unit where
  name_raw_get := fun _ => some "Load1"
  name_raw_set := fun _ _ => (true, ())
  inputEntities_raw_get := fun _ => (some fun i => some ⟨i⟩, some 2)
  inputEntities_raw_set := fun _ _ _ => (true, ())

/-- A `SimAttributeRaw` oracle whose raw getters fail: `name_raw` returns a
null `char*`, `inputEntities_raw` returns a null array and leaves the
`return_size` out-parameter unassigned. -/
def sampleSimAttributeRawNull : SimAttributeRaw Unit where
  name_raw_get := fun _ => none
  name_raw_set := fun _ _ => (false, ())
  inputEntities_raw_get := fun _ => (none, none)
  inputEntities_raw_set := fun _ _ _ => (false, ())

/-- A `SimAttributeRaw` oracle whose `name_raw` returns a non-null pointer to
the empty character sequence. -/
def sampleSimAttributeRawEmptyName : SimAttributeRaw Unit where
  name_raw_get := fun _ => some ""
  name_raw_set := fun _ _ => (true, ())
  inputEntities_raw_get := fun _ => (some fun i => some ⟨i⟩, some 0)
  inputEntities_raw_set := fun _ _ _ => (true, ())

/-- A `ConfigurationParameterCellRaw` oracle whose raw calls succeed. -/
def sampleConfigurationParameterCellRaw : ConfigurationParameterCellRaw Unit where
  parentColumn_raw := fun _ => some ⟨0⟩
  expression_raw_get := fun _ => some "d1 + 2 mm"
  expression_raw_set := fun _ _ => (true, ())
  value_raw_get := fun _ => 1.5
  value_raw_set := fun _ _ => (true, ())

/-- A `ConfigurationParameterCellRaw` oracle whose `expression_raw` getter
returns a null `char*`. -/
def sampleConfigurationParameterCellRawNull : ConfigurationParameterCellRaw Unit where
  parentColumn_raw := fun _ => none
  expression_raw_get := fun _ => none
  expression_raw_set := fun _ _ => (false, ())
  value_raw_get := fun _ => 0.0
  value_raw_set := fun _ _ => (false, ())

/-- An `AdditiveFEADeckBuilderRaw` oracle whose raw calls succeed; `cards_raw`
returns a non-null two-element array and assigns 2 to `return_size`. -/
def sampleAdditiveFEADeckBuilderRaw : AdditiveFEADeckBuilderRaw Unit where
  create_raw := fun _ => (some ⟨0⟩, ())
  createSTLMap_raw := fun _ => (some ⟨1⟩, ())
  createConvection_raw := fun _ => (some ⟨2⟩, ())
  append_raw := fun _ _ => ()
  createGenericCard_raw := fun _ _ _ => (some ⟨3⟩, ())
  createVoidCard_raw := fun _ _ => (some ⟨4⟩, ())
  createIntCard_raw := fun _ _ _ => (some ⟨5⟩, ())
  createDoubleCard_raw := fun _ _ _ => (some ⟨6⟩, ())
  createStringCard_raw := fun _ _ _ => (some ⟨7⟩, ())
  createStringArrayCard_raw := fun _ _ _ _ => (some ⟨8⟩, ())
  createBuildPlateZBoundsCard_raw := fun _ _ _ => (some ⟨9⟩, ())
  createDiskCheckCard_raw := fun _ _ _ => (some ⟨10⟩, ())
  createSTLMapCard_raw := fun _ _ => (some ⟨11⟩, ())
  createConvectionCard_raw := fun _ _ => (some ⟨12⟩, ())
  createBuildPlateXYExtensionCard_raw := fun _ _ _ _ _ => (some ⟨13⟩, ())
  cards_raw := fun _ => (some fun i => some ⟨i⟩, some 2)

/-- An `AdditiveFEADeckBuilderRaw` oracle whose raw calls fail; `cards_raw`
returns a null array and leaves `return_size` unassigned. -/
def sampleAdditiveFEADeckBuilderRawNull : AdditiveFEADeckBuilderRaw Unit where
  create_raw := fun _ => (none, ())
  createSTLMap_raw := fun _ => (none, ())
  createConvection_raw := fun _ => (none, ())
  append_raw := fun _ _ => ()
  createGenericCard_raw := fun _ _ _ => (none, ())
  createVoidCard_raw := fun _ _ => (none, ())
  createIntCard_raw := fun _ _ _ => (none, ())
  createDoubleCard_raw := fun _ _ _ => (none, ())
  createStringCard_raw := fun _ _ _ => (none, ())
  createStringArrayCard_raw := fun _ _ _ _ => (none, ())
  createBuildPlateZBoundsCard_raw := fun _ _ _ => (none, ())
  createDiskCheckCard_raw := fun _ _ _ => (none, ())
  createSTLMapCard_raw := fun _ _ => (none, ())
  createConvectionCard_raw := fun _ _ => (none, ())
  createBuildPlateXYExtensionCard_raw := fun _ _ _ _ _ => (none, ())
  cards_raw := fun _ => (none, none)

/-! ### Theorems -/

/-- The `copyTo` loop from iteration `i` on enumerates the indices
`i, i+1, ...` up to `count() - 1`, writing `item(j)` for each. -/
theorem LoadCaseItems.copyToAux_eq {S : Type} (R : LoadCaseItemsRaw S) (s : S)
    (i : Nat) :
    LoadCaseItems.copyToAux R s i =
      (List.range' i ((LoadCaseItems.count R s).1 - i)).map
        fun j => (LoadCaseItems.item R s j).1 := by
  generalize hn : (LoadCaseItems.count R s).1 - i = n
  induction n generalizing i with
  | zero =>
      unfold LoadCaseItems.copyToAux
      rw [dif_neg (show ¬ i < (LoadCaseItems.count R s).1 by omega)]
      rfl
  | succ n ih =>
      unfold LoadCaseItems.copyToAux
      rw [dif_pos (show i < (LoadCaseItems.count R s).1 by omega)]
      rw [List.range'_succ, List.map_cons, ih (i + 1) (by omega)]

/-- C1: every public method with a pointer, `bool`, `double`, enum or `size_t`
result is a thin forwarder: its result is exactly the result of one call to
its corresponding raw method (wrapped in `core::Ptr` for pointer results,
returned unchanged otherwise), and its raw-call trace is exactly that single
call — in particular, for every `ConstraintMask` and each of the six
displacement/rotation flags, the getter returns the flag's raw getter value
and the setter returns the raw setter's value at the same `bool` argument. -/
theorem c1_thin_wrapper_forwarding :
    (∀ (S : Type) (R : ConstraintMaskRaw S) (s : S),
      (ConstraintMask.isDisplacementConstrainedX_get R s).1 =
          R.isDisplacementConstrainedX_raw_get s ∧
        (ConstraintMask.isDisplacementConstrainedX_get R s).2.1 =
          [ConstraintMaskEvent.isDisplacementConstrainedX_get]) ∧
    (∀ (S : Type) (R : ConstraintMaskRaw S) (v : Bool) (s : S),
      (ConstraintMask.isDisplacementConstrainedX_set R v s).1 =
          (R.isDisplacementConstrainedX_raw_set v s).1 ∧
        (ConstraintMask.isDisplacementConstrainedX_set R v s).2.1 =
          [ConstraintMaskEvent.isDisplacementConstrainedX_set v]) ∧
    (∀ (S : Type) (R : ConstraintMaskRaw S) (s : S),
      (ConstraintMask.isDisplacementConstrainedY_get R s).1 =
          R.isDisplacementConstrainedY_raw_get s ∧
        (ConstraintMask.isDisplacementConstrainedY_get R s).2.1 =
          [ConstraintMaskEvent.isDisplacementConstrainedY_get]) ∧
    (∀ (S : Type) (R : ConstraintMaskRaw S) (v : Bool) (s : S),
      (ConstraintMask.isDisplacementConstrainedY_set R v s).1 =
          (R.isDisplacementConstrainedY_raw_set v s).1 ∧
        (ConstraintMask.isDisplacementConstrainedY_set R v s).2.1 =
          [ConstraintMaskEvent.isDisplacementConstrainedY_set v]) ∧
    (∀ (S : Type) (R : ConstraintMaskRaw S) (s : S),
      (ConstraintMask.isDisplacementConstrainedZ_get R s).1 =
          R.isDisplacementConstrainedZ_raw_get s ∧
        (ConstraintMask.isDisplacementConstrainedZ_get R s).2.1 =
          [ConstraintMaskEvent.isDisplacementConstrainedZ_get]) ∧
    (∀ (S : Type) (R : ConstraintMaskRaw S) (v : Bool) (s : S),
      (ConstraintMask.isDisplacementConstrainedZ_set R v s).1 =
          (R.isDisplacementConstrainedZ_raw_set v s).1 ∧
        (ConstraintMask.isDisplacementConstrainedZ_set R v s).2.1 =
          [ConstraintMaskEvent.isDisplacementConstrainedZ_set v]) ∧
    (∀ (S : Type) (R : ConstraintMaskRaw S) (s : S),
      (ConstraintMask.isRotationConstrainedX_get R s).1 =
          R.isRotationConstrainedX_raw_get s ∧
        (ConstraintMask.isRotationConstrainedX_get R s).2.1 =
          [ConstraintMaskEvent.isRotationConstrainedX_get]) ∧
    (∀ (S : Type) (R : ConstraintMaskRaw S) (v : Bool) (s : S),
      (ConstraintMask.isRotationConstrainedX_set R v s).1 =
          (R.isRotationConstrainedX_raw_set v s).1 ∧
        (ConstraintMask.isRotationConstrainedX_set R v s).2.1 =
          [ConstraintMaskEvent.isRotationConstrainedX_set v]) ∧
    (∀ (S : Type) (R : ConstraintMaskRaw S) (s : S),
      (ConstraintMask.isRotationConstrainedY_get R s).1 =
          R.isRotationConstrainedY_raw_get s ∧
        (ConstraintMask.isRotationConstrainedY_get R s).2.1 =
          [ConstraintMaskEvent.isRotationConstrainedY_get]) ∧
    (∀ (S : Type) (R : ConstraintMaskRaw S) (v : Bool) (s : S),
      (ConstraintMask.isRotationConstrainedY_set R v s).1 =
          (R.isRotationConstrainedY_raw_set v s).1 ∧
        (ConstraintMask.isRotationConstrainedY_set R v s).2.1 =
          [ConstraintMaskEvent.isRotationConstrainedY_set v]) ∧
    (∀ (S : Type) (R : ConstraintMaskRaw S) (s : S),
      (ConstraintMask.isRotationConstrainedZ_get R s).1 =
          R.isRotationConstrainedZ_raw_get s ∧
        (ConstraintMask.isRotationConstrainedZ_get R s).2.1 =
          [ConstraintMaskEvent.isRotationConstrainedZ_get]) ∧
    (∀ (S : Type) (R : ConstraintMaskRaw S) (v : Bool) (s : S),
      (ConstraintMask.isRotationConstrainedZ_set R v s).1 =
          (R.isRotationConstrainedZ_raw_set v s).1 ∧
        (ConstraintMask.isRotationConstrainedZ_set R v s).2.1 =
          [ConstraintMaskEvent.isRotationConstrainedZ_set v]) ∧
    (∀ (S : Type) (R : ConfigurationParameterCellRaw S) (s : S),
      (ConfigurationParameterCell.parentColumn R s).1 =
          Ptr.ofRaw (R.parentColumn_raw s) ∧
        (ConfigurationParameterCell.parentColumn R s).2.1 =
          [ConfigurationParameterCellEvent.parentColumn_get]) ∧
    (∀ (S : Type) (R : ConfigurationParameterCellRaw S) (v : String) (s : S),
      (ConfigurationParameterCell.expression_set R v s).1 =
          (R.expression_raw_set v s).1 ∧
        (ConfigurationParameterCell.expression_set R v s).2.1 =
          [ConfigurationParameterCellEvent.expression_set v]) ∧
    (∀ (S : Type) (R : ConfigurationParameterCellRaw S) (s : S),
      (ConfigurationParameterCell.value_get R s).1 = R.value_raw_get s ∧
        (ConfigurationParameterCell.value_get R s).2.1 =
          [ConfigurationParameterCellEvent.value_get]) ∧
    (∀ (S : Type) (R : ConfigurationParameterCellRaw S) (v : CppDouble) (s : S),
      (ConfigurationParameterCell.value_set R v s).1 =
          (R.value_raw_set v s).1 ∧
        (ConfigurationParameterCell.value_set R v s).2.1 =
          [ConfigurationParameterCellEvent.value_set v]) ∧
    (∀ (S : Type) (R : StructuralConstraintRaw S) (s : S),
      (StructuralConstraint.type_get R s).1 = R.type_raw_get s ∧
        (StructuralConstraint.type_get R s).2.1 =
          [StructuralConstraintEvent.type_get]) ∧
    (∀ (S : Type) (R : StructuralConstraintRaw S) (v : ConstraintTypes) (s : S),
      (StructuralConstraint.type_set R v s).1 = (R.type_raw_set v s).1 ∧
        (StructuralConstraint.type_set R v s).2.1 =
          [StructuralConstraintEvent.type_set v]) ∧
    (∀ (S : Type) (R : StructuralConstraintRaw S) (s : S),
      (StructuralConstraint.mask_get R s).1 = Ptr.ofRaw (R.mask_raw_get s) ∧
        (StructuralConstraint.mask_get R s).2.1 =
          [StructuralConstraintEvent.mask_get]) ∧
    (∀ (S : Type) (R : StructuralConstraintRaw S) (v : Ptr MaskObj) (s : S),
      (StructuralConstraint.mask_set R v s).1 = (R.mask_raw_set v.get s).1 ∧
        (StructuralConstraint.mask_set R v s).2.1 =
          [StructuralConstraintEvent.mask_set v.get]) ∧
    (∀ (S : Type) (R : StructuralConstraintRaw S) (s : S),
      (StructuralConstraint.displacements_get R s).1 =
          Ptr.ofRaw (R.displacements_raw_get s) ∧
        (StructuralConstraint.displacements_get R s).2.1 =
          [StructuralConstraintEvent.displacements_get]) ∧
    (∀ (S : Type) (R : StructuralConstraintRaw S) (v : Ptr Vector3DObj) (s : S),
      (StructuralConstraint.displacements_set R v s).1 =
          (R.displacements_raw_set v.get s).1 ∧
        (StructuralConstraint.displacements_set R v s).2.1 =
          [StructuralConstraintEvent.displacements_set v.get]) ∧
    (∀ (S : Type) (R : StructuralConstraintRaw S) (s : S),
      (StructuralConstraint.rotations_get R s).1 =
          Ptr.ofRaw (R.rotations_raw_get s) ∧
        (StructuralConstraint.rotations_get R s).2.1 =
          [StructuralConstraintEvent.rotations_get]) ∧
    (∀ (S : Type) (R : StructuralConstraintRaw S) (v : Ptr Vector3DObj) (s : S),
      (StructuralConstraint.rotations_set R v s).1 =
          (R.rotations_raw_set v.get s).1 ∧
        (StructuralConstraint.rotations_set R v s).2.1 =
          [StructuralConstraintEvent.rotations_set v.get]) ∧
    (∀ (S : Type) (R : SimAttributeRaw S) (v : String) (s : S),
      (SimAttribute.name_set R v s).1 = (R.name_raw_set v s).1 ∧
        (SimAttribute.name_set R v s).2.1 = [SimAttributeEvent.name_set v]) ∧
    (∀ (S : Type) (R : SimAttributeRaw S) (v : List (Ptr BaseObj)) (s : S),
      (SimAttribute.inputEntities_set R v s).1 =
          (R.inputEntities_raw_set (v.map Ptr.get) v.length s).1 ∧
        (SimAttribute.inputEntities_set R v s).2.1 =
          [SimAttributeEvent.inputEntities_set (v.map Ptr.get) v.length]) ∧
    (∀ (S : Type) (R : LoadCaseItemsRaw S) (s : S) (i : Nat),
      (LoadCaseItems.item R s i).1 = Ptr.ofRaw (R.item_raw i s) ∧
        (LoadCaseItems.item R s i).2.1 = [LoadCaseItemsEvent.item i]) ∧
    (∀ (S : Type) (R : LoadCaseItemsRaw S) (s : S) (n : String),
      (LoadCaseItems.itemByName R s n).1 = Ptr.ofRaw (R.itemByName_raw n s) ∧
        (LoadCaseItems.itemByName R s n).2.1 =
          [LoadCaseItemsEvent.itemByName n]) ∧
    (∀ (S : Type) (R : LoadCaseItemsRaw S) (s : S),
      (LoadCaseItems.count R s).1 = R.count_raw s ∧
        (LoadCaseItems.count R s).2.1 = [LoadCaseItemsEvent.count]) ∧
    (∀ (S : Type) (R : AdditiveFEADeckBuilderRaw S) (s : S),
      (AdditiveFEADeckBuilder.create R s).1 =
          Ptr.ofRaw (R.create_raw s).1 ∧
        (AdditiveFEADeckBuilder.create R s).2.1 =
          [AdditiveFEADeckBuilderEvent.create]) ∧
    (∀ (S : Type) (R : AdditiveFEADeckBuilderRaw S) (s : S),
      (AdditiveFEADeckBuilder.createSTLMap R s).1 =
          Ptr.ofRaw (R.createSTLMap_raw s).1 ∧
        (AdditiveFEADeckBuilder.createSTLMap R s).2.1 =
          [AdditiveFEADeckBuilderEvent.createSTLMap]) ∧
    (∀ (S : Type) (R : AdditiveFEADeckBuilderRaw S) (s : S),
      (AdditiveFEADeckBuilder.createConvection R s).1 =
          Ptr.ofRaw (R.createConvection_raw s).1 ∧
        (AdditiveFEADeckBuilder.createConvection R s).2.1 =
          [AdditiveFEADeckBuilderEvent.createConvection]) ∧
    (∀ (S : Type) (R : AdditiveFEADeckBuilderRaw S) (n v : String) (s : S),
      (AdditiveFEADeckBuilder.createGenericCard R n v s).1 =
          Ptr.ofRaw (R.createGenericCard_raw n v s).1 ∧
        (AdditiveFEADeckBuilder.createGenericCard R n v s).2.1 =
          [AdditiveFEADeckBuilderEvent.createGenericCard n v]) ∧
    (∀ (S : Type) (R : AdditiveFEADeckBuilderRaw S) (c : AdditiveFEACard) (s : S),
      (AdditiveFEADeckBuilder.createVoidCard R c s).1 =
          Ptr.ofRaw (R.createVoidCard_raw c s).1 ∧
        (AdditiveFEADeckBuilder.createVoidCard R c s).2.1 =
          [AdditiveFEADeckBuilderEvent.createVoidCard c]) ∧
    (∀ (S : Type) (R : AdditiveFEADeckBuilderRaw S) (c : AdditiveFEACard)
        (v : CppInt) (s : S),
      (AdditiveFEADeckBuilder.createIntCard R c v s).1 =
          Ptr.ofRaw (R.createIntCard_raw c v s).1 ∧
        (AdditiveFEADeckBuilder.createIntCard R c v s).2.1 =
          [AdditiveFEADeckBuilderEvent.createIntCard c v]) ∧
    (∀ (S : Type) (R : AdditiveFEADeckBuilderRaw S) (c : AdditiveFEACard)
        (v : CppDouble) (s : S),
      (AdditiveFEADeckBuilder.createDoubleCard R c v s).1 =
          Ptr.ofRaw (R.createDoubleCard_raw c v s).1 ∧
        (AdditiveFEADeckBuilder.createDoubleCard R c v s).2.1 =
          [AdditiveFEADeckBuilderEvent.createDoubleCard c v]) ∧
    (∀ (S : Type) (R : AdditiveFEADeckBuilderRaw S) (c : AdditiveFEACard)
        (v : String) (s : S),
      (AdditiveFEADeckBuilder.createStringCard R c v s).1 =
          Ptr.ofRaw (R.createStringCard_raw c v s).1 ∧
        (AdditiveFEADeckBuilder.createStringCard R c v s).2.1 =
          [AdditiveFEADeckBuilderEvent.createStringCard c v]) ∧
    (∀ (S : Type) (R : AdditiveFEADeckBuilderRaw S) (c : AdditiveFEACard)
        (v : List String) (s : S),
      (AdditiveFEADeckBuilder.createStringArrayCard R c v s).1 =
          Ptr.ofRaw (R.createStringArrayCard_raw c
            (if v.isEmpty then none else some v) v.length s).1 ∧
        (AdditiveFEADeckBuilder.createStringArrayCard R c v s).2.1 =
          [AdditiveFEADeckBuilderEvent.createStringArrayCard c
            (if v.isEmpty then none else some v) v.length]) ∧
    (∀ (S : Type) (R : AdditiveFEADeckBuilderRaw S) (zTop zBottom : CppDouble)
        (s : S),
      (AdditiveFEADeckBuilder.createBuildPlateZBoundsCard R zTop zBottom s).1 =
          Ptr.ofRaw (R.createBuildPlateZBoundsCard_raw zTop zBottom s).1 ∧
        (AdditiveFEADeckBuilder.createBuildPlateZBoundsCard R zTop zBottom s).2.1 =
          [AdditiveFEADeckBuilderEvent.createBuildPlateZBoundsCard zTop zBottom]) ∧
    (∀ (S : Type) (R : AdditiveFEADeckBuilderRaw S) (i1 : CppInt)
        (r1 : CppDouble) (s : S),
      (AdditiveFEADeckBuilder.createDiskCheckCard R i1 r1 s).1 =
          Ptr.ofRaw (R.createDiskCheckCard_raw i1 r1 s).1 ∧
        (AdditiveFEADeckBuilder.createDiskCheckCard R i1 r1 s).2.1 =
          [AdditiveFEADeckBuilderEvent.createDiskCheckCard i1 r1]) ∧
    (∀ (S : Type) (R : AdditiveFEADeckBuilderRaw S) (map : Ptr STLMapObj)
        (s : S),
      (AdditiveFEADeckBuilder.createSTLMapCard R map s).1 =
          Ptr.ofRaw (R.createSTLMapCard_raw map.get s).1 ∧
        (AdditiveFEADeckBuilder.createSTLMapCard R map s).2.1 =
          [AdditiveFEADeckBuilderEvent.createSTLMapCard map.get]) ∧
    (∀ (S : Type) (R : AdditiveFEADeckBuilderRaw S) (conv : Ptr ConvectionObj)
        (s : S),
      (AdditiveFEADeckBuilder.createConvectionCard R conv s).1 =
          Ptr.ofRaw (R.createConvectionCard_raw conv.get s).1 ∧
        (AdditiveFEADeckBuilder.createConvectionCard R conv s).2.1 =
          [AdditiveFEADeckBuilderEvent.createConvectionCard conv.get]) ∧
    (∀ (S : Type) (R : AdditiveFEADeckBuilderRaw S)
        (left right front back : CppDouble) (s : S),
      (AdditiveFEADeckBuilder.createBuildPlateXYExtensionCard
          R left right front back s).1 =
          Ptr.ofRaw (R.createBuildPlateXYExtensionCard_raw
            left right front back s).1 ∧
        (AdditiveFEADeckBuilder.createBuildPlateXYExtensionCard
            R left right front back s).2.1 =
          [AdditiveFEADeckBuilderEvent.createBuildPlateXYExtensionCard
            left right front back]) :=
  ⟨fun _ _ _ => ⟨rfl, rfl⟩, fun _ _ _ _ => ⟨rfl, rfl⟩,
   fun _ _ _ => ⟨rfl, rfl⟩, fun _ _ _ _ => ⟨rfl, rfl⟩,
   fun _ _ _ => ⟨rfl, rfl⟩, fun _ _ _ _ => ⟨rfl, rfl⟩,
   fun _ _ _ => ⟨rfl, rfl⟩, fun _ _ _ _ => ⟨rfl, rfl⟩,
   fun _ _ _ => ⟨rfl, rfl⟩, fun _ _ _ _ => ⟨rfl, rfl⟩,
   fun _ _ _ => ⟨rfl, rfl⟩, fun _ _ _ _ => ⟨rfl, rfl⟩,
   fun _ _ _ => ⟨rfl, rfl⟩, fun _ _ _ _ => ⟨rfl, rfl⟩,
   fun _ _ _ => ⟨rfl, rfl⟩, fun _ _ _ _ => ⟨rfl, rfl⟩,
   fun _ _ _ => ⟨rfl, rfl⟩, fun _ _ _ _ => ⟨rfl, rfl⟩,
   fun _ _ _ => ⟨rfl, rfl⟩, fun _ _ _ _ => ⟨rfl, rfl⟩,
   fun _ _ _ => ⟨rfl, rfl⟩, fun _ _ _ _ => ⟨rfl, rfl⟩,
   fun _ _ _ => ⟨rfl, rfl⟩, fun _ _ _ _ => ⟨rfl, rfl⟩,
   fun _ _ _ _ => ⟨rfl, rfl⟩, fun _ _ _ _ => ⟨rfl, rfl⟩,
   fun _ _ _ _ => ⟨rfl, rfl⟩, fun _ _ _ _ => ⟨rfl, rfl⟩,
   fun _ _ _ => ⟨rfl, rfl⟩,
   fun _ _ _ => ⟨rfl, rfl⟩, fun _ _ _ => ⟨rfl, rfl⟩,
   fun _ _ _ => ⟨rfl, rfl⟩, fun _ _ _ _ _ => ⟨rfl, rfl⟩,
   fun _ _ _ _ => ⟨rfl, rfl⟩, fun _ _ _ _ _ => ⟨rfl, rfl⟩,
   fun _ _ _ _ _ => ⟨rfl, rfl⟩, fun _ _ _ _ _ => ⟨rfl, rfl⟩,
   fun _ _ _ _ _ => ⟨rfl, rfl⟩, fun _ _ _ _ _ => ⟨rfl, rfl⟩,
   fun _ _ _ _ _ => ⟨rfl, rfl⟩, fun _ _ _ _ => ⟨rfl, rfl⟩,
   fun _ _ _ _ => ⟨rfl, rfl⟩, fun _ _ _ _ _ _ _ => ⟨rfl, rfl⟩⟩

/-- C2: failure is reported only through the return value in this layer —
every mutator returns the raw method's `bool` unchanged, and every factory or
object-returning accessor returns a `core::Ptr` that is null exactly when the
raw method returned a null pointer. -/
theorem c2_failure_only_bool_or_null :
    (∀ (S : Type) (R : ConfigurationParameterCellRaw S) (v : String) (s : S),
      (ConfigurationParameterCell.expression_set R v s).1 =
        (R.expression_raw_set v s).1) ∧
    (∀ (S : Type) (R : SimAttributeRaw S) (v : String) (s : S),
      (SimAttribute.name_set R v s).1 = (R.name_raw_set v s).1) ∧
    (∀ (S : Type) (R : StructuralConstraintRaw S) (v : ConstraintTypes) (s : S),
      (StructuralConstraint.type_set R v s).1 = (R.type_raw_set v s).1) ∧
    (∀ (S : Type) (R : ConfigurationParameterCellRaw S) (v : CppDouble) (s : S),
      (ConfigurationParameterCell.value_set R v s).1 =
        (R.value_raw_set v s).1) ∧
    (∀ (S : Type) (R : StructuralConstraintRaw S) (v : Ptr MaskObj) (s : S),
      (StructuralConstraint.mask_set R v s).1 = (R.mask_raw_set v.get s).1) ∧
    (∀ (S : Type) (R : SimAttributeRaw S) (v : List (Ptr BaseObj)) (s : S),
      (SimAttribute.inputEntities_set R v s).1 =
        (R.inputEntities_raw_set (v.map Ptr.get) v.length s).1) ∧
    (∀ (S : Type) (R : AdditiveFEADeckBuilderRaw S) (s : S),
      (AdditiveFEADeckBuilder.create R s).1.isNull = true ↔
        (R.create_raw s).1 = none) ∧
    (∀ (S : Type) (R : AdditiveFEADeckBuilderRaw S) (n v : String) (s : S),
      (AdditiveFEADeckBuilder.createGenericCard R n v s).1.isNull = true ↔
        (R.createGenericCard_raw n v s).1 = none) ∧
    (∀ (S : Type) (R : StructuralConstraintRaw S) (s : S),
      (StructuralConstraint.mask_get R s).1.isNull = true ↔
        R.mask_raw_get s = none) ∧
    (∀ (S : Type) (R : ConfigurationParameterCellRaw S) (s : S),
      (ConfigurationParameterCell.parentColumn R s).1.isNull = true ↔
        R.parentColumn_raw s = none) ∧
    (∀ (S : Type) (R : LoadCaseItemsRaw S) (s : S) (i : Nat),
      (LoadCaseItems.item R s i).1.isNull = true ↔ R.item_raw i s = none) :=
  ⟨fun _ _ _ _ => rfl, fun _ _ _ _ => rfl, fun _ _ _ _ => rfl,
   fun _ _ _ _ => rfl, fun _ _ _ _ => rfl, fun _ _ _ _ => rfl,
   fun _ _ _ => Option.isNone_iff_eq_none,
   fun _ _ _ _ _ => Option.isNone_iff_eq_none,
   fun _ _ _ => Option.isNone_iff_eq_none,
   fun _ _ _ => Option.isNone_iff_eq_none,
   fun _ _ _ _ => Option.isNone_iff_eq_none⟩

/-- C3: array-returning getters convert the raw array faithfully — when the
raw call returns a non-null array `mem` and assigns size `sz`, the public
getter returns the list of the first `sz` entries, each wrapped in a
`core::Ptr`, in order, so its length is exactly `sz`; this holds for
`AdditiveFEADeckBuilder::cards` and for `SimAttribute::inputEntities`. -/
theorem c3_array_getters_faithful :
    (∀ (S : Type) (R : AdditiveFEADeckBuilderRaw S) (s : S) (g : Nat)
        (mem : Nat → Option CardObj) (sz : Nat),
      R.cards_raw s = (some mem, some sz) →
        (AdditiveFEADeckBuilder.cards R s g).1 =
            (List.range sz).map (fun i => Ptr.ofRaw (mem i)) ∧
          ((AdditiveFEADeckBuilder.cards R s g).1).length = sz) ∧
    (∀ (S : Type) (R : SimAttributeRaw S) (s : S) (g : Nat)
        (mem : Nat → Option BaseObj) (sz : Nat),
      R.inputEntities_raw_get s = (some mem, some sz) →
        (SimAttribute.inputEntities_get R s g).1 =
            (List.range sz).map (fun i => Ptr.ofRaw (mem i)) ∧
          ((SimAttribute.inputEntities_get R s g).1).length = sz) := by
  constructor
  · intro S R s g mem sz h
    refine ⟨?_, ?_⟩ <;> simp [AdditiveFEADeckBuilder.cards, h]
  · intro S R s g mem sz h
    refine ⟨?_, ?_⟩ <;> simp [SimAttribute.inputEntities_get, h]

/-- Witness for C3: on a concrete oracle whose raw array has two entries, both
getters return exactly those two entries, wrapped, in order. -/
theorem c3_array_getters_faithful_witness :
    ((AdditiveFEADeckBuilder.cards sampleAdditiveFEADeckBuilderRaw () 7).1 =
        (List.range 2).map (fun i => Ptr.ofRaw (some ⟨i⟩)) ∧
      ((AdditiveFEADeckBuilder.cards sampleAdditiveFEADeckBuilderRaw () 7).1).length = 2) ∧
    ((SimAttribute.inputEntities_get sampleSimAttributeRaw () 7).1 =
        (List.range 2).map (fun i => Ptr.ofRaw (some ⟨i⟩)) ∧
      ((SimAttribute.inputEntities_get sampleSimAttributeRaw () 7).1).length = 2) :=
  ⟨c3_array_getters_faithful.1 Unit sampleAdditiveFEADeckBuilderRaw () 7
      (fun i => some ⟨i⟩) 2 rfl,
    c3_array_getters_faithful.2 Unit sampleSimAttributeRaw () 7
      (fun i => some ⟨i⟩) 2 rfl⟩

/-- C4: vector-taking setters marshal the owning container faithfully —
`createStringArrayCard` calls its raw method with size `value.size()` and an
array whose `i`-th entry (for every `i < value.size()`) is the C string of
`value[i]`, and `SimAttribute::inputEntities` calls its raw method with size
`value.size()` and an array whose `i`-th entry is the raw pointer of
`value[i]`; both return the raw method's result unchanged. -/
theorem c4_vector_setters_marshal :
    (∀ (S : Type) (R : AdditiveFEADeckBuilderRaw S) (c : AdditiveFEACard)
        (v : List String) (s : S),
      (AdditiveFEADeckBuilder.createStringArrayCard R c v s).2.1 =
          [AdditiveFEADeckBuilderEvent.createStringArrayCard c
            (if v.isEmpty then none else some v) v.length] ∧
        (∀ i (h : i < v.length),
          ((if v.isEmpty then none else some v).bind fun l => l.get? i) =
            some (v.get ⟨i, h⟩)) ∧
        (AdditiveFEADeckBuilder.createStringArrayCard R c v s).1 =
          Ptr.ofRaw (R.createStringArrayCard_raw c
            (if v.isEmpty then none else some v) v.length s).1) ∧
    (∀ (S : Type) (R : SimAttributeRaw S) (v : List (Ptr BaseObj)) (s : S),
      (SimAttribute.inputEntities_set R v s).2.1 =
          [SimAttributeEvent.inputEntities_set (v.map Ptr.get) v.length] ∧
        (∀ i (h : i < v.length),
          (v.map Ptr.get).get? i = some (v.get ⟨i, h⟩).get) ∧
        (SimAttribute.inputEntities_set R v s).1 =
          (R.inputEntities_raw_set (v.map Ptr.get) v.length s).1) := by
  constructor
  · intro S R c v s
    refine ⟨rfl, ?_, rfl⟩
    intro i h
    have hne : v.isEmpty = false := by
      cases v with
      | nil => simp at h
      | cons a l => rfl
    rw [hne]
    simp [List.get?_eq_get h]
  · intro S R v s
    refine ⟨rfl, ?_, rfl⟩
    intro i h
    rw [List.get?_map, List.get?_eq_get h]
    rfl

/-- Witness for C4: on a two-element vector, the marshalled array's entry 1 is
the second element's C string (resp. raw pointer) and the raw call receives
size 2. -/
theorem c4_vector_setters_marshal_witness :
    ((AdditiveFEADeckBuilder.createStringArrayCard
        sampleAdditiveFEADeckBuilderRaw 3 ["a", "b"] ()).2.1 =
      [AdditiveFEADeckBuilderEvent.createStringArrayCard 3
        (some ["a", "b"]) 2]) ∧
    (((some ["a", "b"]).bind fun l => l.get? 1) = some "b") ∧
    ((SimAttribute.inputEntities_set sampleSimAttributeRaw
        [Ptr.ofRaw (some ⟨5⟩), Ptr.ofRaw none] ()).2.1 =
      [SimAttributeEvent.inputEntities_set [some ⟨5⟩, none] 2]) ∧
    (([Ptr.ofRaw (some (⟨5⟩ : BaseObj)), Ptr.ofRaw none].map Ptr.get).get? 1 =
      some none) :=
  ⟨(c4_vector_setters_marshal.1 Unit sampleAdditiveFEADeckBuilderRaw 3
      ["a", "b"] ()).1,
    (c4_vector_setters_marshal.1 Unit sampleAdditiveFEADeckBuilderRaw 3
      ["a", "b"] ()).2.1 1 (by decide),
    (c4_vector_setters_marshal.2 Unit sampleSimAttributeRaw
      [Ptr.ofRaw (some ⟨5⟩), Ptr.ofRaw none] ()).1,
    (c4_vector_setters_marshal.2 Unit sampleSimAttributeRaw
      [Ptr.ofRaw (some ⟨5⟩), Ptr.ofRaw none] ()).2.1 1 (by decide)⟩

/-- C5: string marshalling is a faithful round trip — when the raw getter
returns a non-null C string, the public getter returns a `std::string` with
exactly that character sequence (`SimAttribute::name` and
`ConfigurationParameterCell::expression`), and each setter passes the C string
of its `std::string` argument, with identical contents, to the raw method and
returns its result. -/
theorem c5_string_roundtrip :
    (∀ (S : Type) (R : SimAttributeRaw S) (s : S) (str : String),
      R.name_raw_get s = some str → (SimAttribute.name_get R s).1 = str) ∧
    (∀ (S : Type) (R : ConfigurationParameterCellRaw S) (s : S) (str : String),
      R.expression_raw_get s = some str →
        (ConfigurationParameterCell.expression_get R s).1 = str) ∧
    (∀ (S : Type) (R : SimAttributeRaw S) (v : String) (s : S),
      (SimAttribute.name_set R v s).2.1 = [SimAttributeEvent.name_set v] ∧
        (SimAttribute.name_set R v s).1 = (R.name_raw_set v s).1) ∧
    (∀ (S : Type) (R : ConfigurationParameterCellRaw S) (v : String) (s : S),
      (ConfigurationParameterCell.expression_set R v s).2.1 =
          [ConfigurationParameterCellEvent.expression_set v] ∧
        (ConfigurationParameterCell.expression_set R v s).1 =
          (R.expression_raw_set v s).1) := by
  refine ⟨?_, ?_, fun _ _ _ _ => ⟨rfl, rfl⟩, fun _ _ _ _ => ⟨rfl, rfl⟩⟩
  · intro S R s str h
    simp [SimAttribute.name_get, h]
  · intro S R s str h
    simp [ConfigurationParameterCell.expression_get, h]

/-- Witness for C5: on concrete oracles returning non-null C strings, the
getters return exactly those character sequences. -/
theorem c5_string_roundtrip_witness :
    (SimAttribute.name_get sampleSimAttributeRaw ()).1 = "Load1" ∧
    (ConfigurationParameterCell.expression_get
      sampleConfigurationParameterCellRaw ()).1 = "d1 + 2 mm" :=
  ⟨c5_string_roundtrip.1 Unit sampleSimAttributeRaw () "Load1" rfl,
    c5_string_roundtrip.2.1 Unit sampleConfigurationParameterCellRaw ()
      "d1 + 2 mm" rfl⟩

/-- C6: the wrapper layer validates nothing — for every argument value,
including a null `core::Ptr` (which becomes a null raw pointer via `.get()`),
an empty string or vector, and an out-of-range enum value (such as 17, which
is not a `ConstraintTypes` enumerator), the public method unconditionally
performs exactly one raw call carrying the argument marshalled unmodified, and
forwards the raw result. -/
theorem c6_no_validation_passthrough :
    (∀ (S : Type) (R : AdditiveFEADeckBuilderRaw S) (card : Ptr CardObj) (s : S),
      (AdditiveFEADeckBuilder.append R card s).2.1 =
          [AdditiveFEADeckBuilderEvent.append card.get] ∧
        (AdditiveFEADeckBuilder.append R card s).2.2 =
          R.append_raw card.get s) ∧
    (∀ (S : Type) (R : AdditiveFEADeckBuilderRaw S) (s : S),
      (AdditiveFEADeckBuilder.append R (Ptr.ofRaw none) s).2.1 =
        [AdditiveFEADeckBuilderEvent.append none]) ∧
    (∀ (S : Type) (R : StructuralConstraintRaw S) (v : Ptr MaskObj) (s : S),
      (StructuralConstraint.mask_set R v s).2.1 =
          [StructuralConstraintEvent.mask_set v.get] ∧
        (StructuralConstraint.mask_set R v s).1 = (R.mask_raw_set v.get s).1) ∧
    (∀ (S : Type) (R : StructuralConstraintRaw S) (s : S),
      (StructuralConstraint.mask_set R (Ptr.ofRaw none) s).2.1 =
        [StructuralConstraintEvent.mask_set none]) ∧
    (∀ (S : Type) (R : StructuralConstraintRaw S) (v : ConstraintTypes) (s : S),
      (StructuralConstraint.type_set R v s).2.1 =
          [StructuralConstraintEvent.type_set v] ∧
        (StructuralConstraint.type_set R v s).1 = (R.type_raw_set v s).1) ∧
    (∀ (S : Type) (R : StructuralConstraintRaw S) (s : S),
      (StructuralConstraint.type_set R (17 : Int) s).2.1 =
        [StructuralConstraintEvent.type_set (17 : Int)]) ∧
    (∀ (S : Type) (R : ConfigurationParameterCellRaw S) (v : String) (s : S),
      (ConfigurationParameterCell.expression_set R v s).2.1 =
        [ConfigurationParameterCellEvent.expression_set v]) ∧
    (∀ (S : Type) (R : SimAttributeRaw S) (v : List (Ptr BaseObj)) (s : S),
      (SimAttribute.inputEntities_set R v s).2.1 =
        [SimAttributeEvent.inputEntities_set (v.map Ptr.get) v.length]) ∧
    (∀ (S : Type) (R : AdditiveFEADeckBuilderRaw S) (c : AdditiveFEACard) (s : S),
      (AdditiveFEADeckBuilder.createStringArrayCard R c [] s).2.1 =
        [AdditiveFEADeckBuilderEvent.createStringArrayCard c none 0]) :=
  ⟨fun _ _ _ _ => ⟨rfl, rfl⟩, fun _ _ _ => rfl,
    fun _ _ _ _ => ⟨rfl, rfl⟩, fun _ _ _ => rfl,
    fun _ _ _ _ => ⟨rfl, rfl⟩, fun _ _ _ => rfl,
    fun _ _ _ _ => rfl, fun _ _ _ _ => rfl, fun _ _ _ _ => rfl⟩

/-- C7: the wrapper layer is stateless — the wrapper classes hold no data of
their own, so for every public method of `ConstraintMask` and
`StructuralConstraint` the final host state is exactly the state produced by
the method's single raw call (for `const` getters, the unchanged input state);
any state the raw method does not affect is therefore unchanged by the public
method. -/
theorem c7_stateless_frame :
    (∀ (S : Type) (R : ConstraintMaskRaw S) (s : S),
      (ConstraintMask.isDisplacementConstrainedX_get R s).2.2 = s ∧
        (ConstraintMask.isDisplacementConstrainedY_get R s).2.2 = s ∧
        (ConstraintMask.isDisplacementConstrainedZ_get R s).2.2 = s ∧
        (ConstraintMask.isRotationConstrainedX_get R s).2.2 = s ∧
        (ConstraintMask.isRotationConstrainedY_get R s).2.2 = s ∧
        (ConstraintMask.isRotationConstrainedZ_get R s).2.2 = s) ∧
    (∀ (S : Type) (R : ConstraintMaskRaw S) (v : Bool) (s : S),
      (ConstraintMask.isDisplacementConstrainedX_set R v s).2.2 =
          (R.isDisplacementConstrainedX_raw_set v s).2 ∧
        (ConstraintMask.isDisplacementConstrainedY_set R v s).2.2 =
          (R.isDisplacementConstrainedY_raw_set v s).2 ∧
        (ConstraintMask.isDisplacementConstrainedZ_set R v s).2.2 =
          (R.isDisplacementConstrainedZ_raw_set v s).2 ∧
        (ConstraintMask.isRotationConstrainedX_set R v s).2.2 =
          (R.isRotationConstrainedX_raw_set v s).2 ∧
        (ConstraintMask.isRotationConstrainedY_set R v s).2.2 =
          (R.isRotationConstrainedY_raw_set v s).2 ∧
        (ConstraintMask.isRotationConstrainedZ_set R v s).2.2 =
          (R.isRotationConstrainedZ_raw_set v s).2) ∧
    (∀ (S : Type) (R : StructuralConstraintRaw S) (s : S),
      (StructuralConstraint.type_get R s).2.2 = s ∧
        (StructuralConstraint.mask_get R s).2.2 = s ∧
        (StructuralConstraint.displacements_get R s).2.2 = s ∧
        (StructuralConstraint.rotations_get R s).2.2 = s) ∧
    (∀ (S : Type) (R : StructuralConstraintRaw S) (v : ConstraintTypes) (s : S),
      (StructuralConstraint.type_set R v s).2.2 = (R.type_raw_set v s).2) ∧
    (∀ (S : Type) (R : StructuralConstraintRaw S) (v : Ptr MaskObj) (s : S),
      (StructuralConstraint.mask_set R v s).2.2 = (R.mask_raw_set v.get s).2) ∧
    (∀ (S : Type) (R : StructuralConstraintRaw S) (v : Ptr Vector3DObj) (s : S),
      (StructuralConstraint.displacements_set R v s).2.2 =
          (R.displacements_raw_set v.get s).2 ∧
        (StructuralConstraint.rotations_set R v s).2.2 =
          (R.rotations_raw_set v.get s).2) :=
  ⟨fun _ _ _ => ⟨rfl, rfl, rfl, rfl, rfl, rfl⟩,
    fun _ _ _ _ => ⟨rfl, rfl, rfl, rfl, rfl, rfl⟩,
    fun _ _ _ => ⟨rfl, rfl, rfl, rfl⟩,
    fun _ _ _ _ => rfl, fun _ _ _ _ => rfl,
    fun _ _ _ _ => ⟨rfl, rfl⟩⟩

/-- C8: a null C string from the raw getter is returned as the empty string —
`SimAttribute::name` and `ConfigurationParameterCell::expression` return `""`
when their raw method returns null, so at the public interface a failed raw
call is indistinguishable from a genuinely empty string value. -/
theorem c8_null_string_is_empty :
    (∀ (S : Type) (R : SimAttributeRaw S) (s : S),
      R.name_raw_get s = none → (SimAttribute.name_get R s).1 = "") ∧
    (∀ (S : Type) (R : ConfigurationParameterCellRaw S) (s : S),
      R.expression_raw_get s = none →
        (ConfigurationParameterCell.expression_get R s).1 = "") ∧
    (∀ (S S' : Type) (R : SimAttributeRaw S) (R' : SimAttributeRaw S')
        (s : S) (s' : S'),
      R.name_raw_get s = none → R'.name_raw_get s' = some "" →
        (SimAttribute.name_get R s).1 = (SimAttribute.name_get R' s').1) := by
  refine ⟨?_, ?_, ?_⟩
  · intro S R s h
    simp [SimAttribute.name_get, h]
  · intro S R s h
    simp [ConfigurationParameterCell.expression_get, h]
  · intro S S' R R' s s' h h'
    simp [SimAttribute.name_get, h, h']

/-- Witness for C8: on concrete oracles whose raw string getters return null,
both public getters return the empty string, and a null raw result is
indistinguishable from a raw result pointing at an empty character
sequence. -/
theorem c8_null_string_is_empty_witness :
    (SimAttribute.name_get sampleSimAttributeRawNull ()).1 = "" ∧
    (ConfigurationParameterCell.expression_get
      sampleConfigurationParameterCellRawNull ()).1 = "" ∧
    (SimAttribute.name_get sampleSimAttributeRawNull ()).1 =
      (SimAttribute.name_get sampleSimAttributeRawEmptyName ()).1 :=
  ⟨c8_null_string_is_empty.1 Unit sampleSimAttributeRawNull () rfl,
    c8_null_string_is_empty.2.1 Unit
      sampleConfigurationParameterCellRawNull () rfl,
    c8_null_string_is_empty.2.2 Unit Unit sampleSimAttributeRawNull
      sampleSimAttributeRawEmptyName () () rfl rfl⟩

/-- C9: when the array-returning raw method returns a null pointer, the public
getter returns the empty vector, and its entire behaviour is independent of
the (possibly unassigned) contents of the `size_t` out-parameter: the result
is the same for any two indeterminate initial values of the size local. -/
theorem c9_null_array_ignores_size :
    (∀ (S : Type) (R : AdditiveFEADeckBuilderRaw S) (s : S) (g g' : Nat),
      (R.cards_raw s).1 = none →
        (AdditiveFEADeckBuilder.cards R s g).1 = [] ∧
          AdditiveFEADeckBuilder.cards R s g =
            AdditiveFEADeckBuilder.cards R s g') ∧
    (∀ (S : Type) (R : SimAttributeRaw S) (s : S) (g g' : Nat),
      (R.inputEntities_raw_get s).1 = none →
        (SimAttribute.inputEntities_get R s g).1 = [] ∧
          SimAttribute.inputEntities_get R s g =
            SimAttribute.inputEntities_get R s g') := by
  constructor
  · intro S R s g g' h
    refine ⟨?_, ?_⟩ <;> simp [AdditiveFEADeckBuilder.cards, h]
  · intro S R s g g' h
    refine ⟨?_, ?_⟩ <;> simp [SimAttribute.inputEntities_get, h]

/-- Witness for C9: on concrete oracles whose raw array getters return null
and leave the size out-parameter unassigned, both getters return the empty
vector, identically for two different indeterminate size values. -/
theorem c9_null_array_ignores_size_witness :
    ((AdditiveFEADeckBuilder.cards sampleAdditiveFEADeckBuilderRawNull () 3).1 = [] ∧
      AdditiveFEADeckBuilder.cards sampleAdditiveFEADeckBuilderRawNull () 3 =
        AdditiveFEADeckBuilder.cards sampleAdditiveFEADeckBuilderRawNull () 17) ∧
    ((SimAttribute.inputEntities_get sampleSimAttributeRawNull () 3).1 = [] ∧
      SimAttribute.inputEntities_get sampleSimAttributeRawNull () 3 =
        SimAttribute.inputEntities_get sampleSimAttributeRawNull () 17) :=
  ⟨c9_null_array_ignores_size.1 Unit sampleAdditiveFEADeckBuilderRawNull ()
      3 17 rfl,
    c9_null_array_ignores_size.2 Unit sampleSimAttributeRawNull () 3 17 rfl⟩

/-- C10: for a `LoadCaseItems` collection in a fixed state, `copyTo` writes
exactly `count()` elements through the output iterator, and the `i`-th element
written is `item(i)`: the sequence written is `item(0), item(1), ...,
item(count()-1)`, i.e. the collection enumerated in increasing index order
starting at 0. -/
theorem c10_copyTo_enumerates_in_order :
    ∀ (S : Type) (R : LoadCaseItemsRaw S) (s : S),
      LoadCaseItems.copyTo R s =
          (List.range (LoadCaseItems.count R s).1).map
            (fun i => (LoadCaseItems.item R s i).1) ∧
        (LoadCaseItems.copyTo R s).length = (LoadCaseItems.count R s).1 := by
  intro S R s
  refine ⟨?_, ?_⟩
  · show LoadCaseItems.copyToAux R s 0 = _
    rw [LoadCaseItems.copyToAux_eq, Nat.sub_zero, List.range_eq_range']
  · show (LoadCaseItems.copyToAux R s 0).length = _
    rw [LoadCaseItems.copyToAux_eq]
    simp

end FusionAPI
